import Mathlib

/-!
Verification of the SGVP-x-Wati webhook pipeline.

Shallow embedding of the TypeScript sources:
  * `server/services/watiApi.ts`   — `downloadFile`, `sendPdfViaWati`,
    `sendErrorMessageViaWati`
  * `server/services/googleSheets.ts` — `findPhoneNumberInSheet`,
    `getEnrollmentNumber`
  * the webhook route handler `router.post('/receive')`

Strings are modelled as Lean `String`/`List Char`; the JavaScript regex
searches are modelled by explicit left-to-right scanners with the same
match semantics; network effects are modelled by explicit environments
(`Except` for calls that may throw).
-/

namespace Wati

/-! ## Generic string helpers (JS regex / string operations) -/

/-- `startsWithL pat s`: `pat` occurs at the head of `s`. -/
def startsWithL : List Char → List Char → Bool
  | [], _ => true
  | _ :: _, [] => false
  | p :: ps, c :: cs => p == c && startsWithL ps cs

/-- `hasSubstrL pat s`: `pat` occurs somewhere in `s` (JS `String.includes`). -/
def hasSubstrL (pat : List Char) : List Char → Bool
  | [] => startsWithL pat []
  | c :: rest => startsWithL pat (c :: rest) || hasSubstrL pat rest

def startsWithS (s pat : String) : Bool := startsWithL pat.toList s.toList

def includesS (s pat : String) : Bool := hasSubstrL pat.toList s.toList

/-- JS `\s` for the ASCII whitespace characters (the inputs of interest
contain only these). -/
def jsIsSpace (c : Char) : Bool :=
  c == ' ' || c == '\t' || c == '\n' || c == '\r' ||
    c == Char.ofNat 11 || c == Char.ofNat 12

/-- `str.replace(/\s/g, '')`. -/
def stripSpaces (s : String) : String :=
  String.mk (s.toList.filter (fun c => !jsIsSpace c))

/-- `str.replace(/\D/g, '')`. -/
def stripNonDigits (s : String) : String :=
  String.mk (s.toList.filter Char.isDigit)

/-- JS `String.prototype.trim` restricted to ASCII whitespace. -/
def jsTrim (s : String) : String :=
  String.mk (((s.toList.dropWhile jsIsSpace).reverse.dropWhile jsIsSpace).reverse)

/-- `name.trim().replace(/[<>]/g, '')` from the route handler. -/
def sanitizeName (s : String) : String :=
  String.mk ((jsTrim s).toList.filter (fun c => c != '<' && c != '>'))

/-- The test `/^\+?[0-9]{10,15}$/.test s`: an optional leading `+`
followed by 10–15 digits and nothing else. -/
def phoneRegexTest (s : String) : Bool :=
  let ds := match s.toList with
    | '+' :: rest => rest
    | cs => cs
  decide (10 ≤ ds.length) && decide (ds.length ≤ 15) && ds.all Char.isDigit

/-- `body.match(/confirm=([^&]+)/)`: scan left-to-right for `confirm=`
followed by a non-empty run of non-`&` characters; on an empty run the
regex engine advances one position, as does the scanner. -/
def confirmScan : List Char → Option (List Char)
  | [] => none
  | c :: rest =>
    if startsWithL ("confirm=".toList) (c :: rest) then
      let cap := ((c :: rest).drop 8).takeWhile (fun ch => ch != '&')
      if cap.isEmpty then confirmScan rest else some cap
    else confirmScan rest

def extractConfirmToken (s : String) : Option String :=
  (confirmScan s.toList).map String.mk

/-- `url.match(/id=([^&]+)/)`. -/
def fileIdScan : List Char → Option (List Char)
  | [] => none
  | c :: rest =>
    if startsWithL ("id=".toList) (c :: rest) then
      let cap := ((c :: rest).drop 3).takeWhile (fun ch => ch != '&')
      if cap.isEmpty then fileIdScan rest else some cap
    else fileIdScan rest

def extractFileId (s : String) : Option String :=
  (fileIdScan s.toList).map String.mk

/-- `contentDisposition.match(/filename="?([^"]+)"?/)`. -/
def filenameScan : List Char → Option (List Char)
  | [] => none
  | c :: rest =>
    if startsWithL ("filename=".toList) (c :: rest) then
      let after := (c :: rest).drop 9
      let after2 := match after with
        | '"' :: t => t
        | _ => after
      let cap := after2.takeWhile (fun ch => ch != '"')
      if cap.isEmpty then filenameScan rest else some cap
    else filenameScan rest

def extractDispositionName (s : String) : Option String :=
  (filenameScan s.toList).map String.mk

/-- `pdfUrl.match(/(?:\/d\/|open\?id=|id=)([^\/&]+)/)` from
`sendPdfViaWati`; at each position the alternatives are tried in order. -/
def driveIdScan : List Char → Option (List Char)
  | [] => none
  | c :: rest =>
    let s := c :: rest
    let attempt : Option (List Char) :=
      if startsWithL ("/d/".toList) s then some (s.drop 3)
      else if startsWithL ("open?id=".toList) s then some (s.drop 8)
      else if startsWithL ("id=".toList) s then some (s.drop 3)
      else none
    match attempt with
    | some rem =>
      let cap := rem.takeWhile (fun ch => ch != '/' && ch != '&')
      if cap.isEmpty then driveIdScan rest else some cap
    | none => driveIdScan rest

def extractDriveFileId (s : String) : Option String :=
  (driveIdScan s.toList).map String.mk

/-- JS truthiness of a possibly-absent string value: present and
non-empty. -/
def truthyStr : Option String → Bool
  | some s => s != ""
  | none => false

/-- `phoneNumber || phone_number` from the route handler. -/
def jsOrStr (a b : Option String) : Option String :=
  if truthyStr a then a else b

/-! ## `downloadFile` (watiApi.ts) -/

/-- The parts of an HTTP response that `downloadFile` inspects. -/
structure HttpResponse where
  contentType : Option String
  contentDisposition : Option String
  body : String
deriving Repr, DecidableEq

/-- Environment of one `downloadFile` run: `resp url` is the outcome of
`axios.get url` (`.error` models a thrown transport error or a status
`>= 400` rejected by `validateStatus`); `writeOk` is whether the write
stream to disk finishes without an I/O error. -/
structure DownloadEnv where
  resp : String → Except String HttpResponse
  writeOk : Bool

/-- `response.headers['content-type'] && includes('text/html')`. -/
def isHtml (r : HttpResponse) : Bool :=
  match r.contentType with
  | some ct => includesS ct "text/html"
  | none => false

/-- The `fileName` a truthy content-disposition header contributes
(watiApi.ts lines 54–61); `''` when the header is absent, falsy, or
fails the `filename=` match. -/
def dispositionFileName (contentDisposition : Option String) : String :=
  if truthyStr contentDisposition then
    match extractDispositionName (contentDisposition.getD "") with
    | some m => m
    | none => ""
  else ""

/-- File-name resolution of `downloadFile` (watiApi.ts lines 53–67):
content-disposition name if the header is truthy and matches, else
`id=<...>` from the URL suffixed `.pdf`, else `downloaded.pdf`. -/
def resolveFileName (contentDisposition : Option String) (url : String) : String :=
  let fileName := dispositionFileName contentDisposition
  if fileName == "" then
    match extractFileId url with
    | some fid => fid ++ ".pdf"
    | none => "downloaded.pdf"
  else fileName

/-- `__dirname` of watiApi.ts, the directory temporary files land in. -/
def watiDirName : String := "/app/server/services"

/-- View of `Except` as a sum, for deciding equality. -/
def exceptToSum {ε α : Type} : Except ε α → ε ⊕ α
  | .error e => .inl e
  | .ok a => .inr a

instance {ε α : Type} [DecidableEq ε] [DecidableEq α] :
    DecidableEq (Except ε α) := fun a b =>
  decidable_of_iff (exceptToSum a = exceptToSum b)
    (by cases a <;> cases b <;> simp [exceptToSum])

/-- Result of a `downloadFile` run: the GET requests issued in order,
the returned path or thrown error, and every file created on disk
(including a partial file whose write errored). -/
structure DownloadResult where
  requests : List String
  outcome : Except String String
  filesCreated : List String
deriving Repr, DecidableEq

/-- The final stream-to-disk step: `fs.createWriteStream` creates the
file either way; on a write error the promise rejects and `downloadFile`
throws, with the partial file already on disk. -/
def streamToDisk (url : String) (reqs : List String) (r : HttpResponse)
    (writeOk : Bool) : DownloadResult :=
  let filePath := watiDirName ++ "/" ++ resolveFileName r.contentDisposition url
  if writeOk then ⟨reqs, .ok filePath, [filePath]⟩
  else ⟨reqs, .error "write stream error", [filePath]⟩

/-- `downloadFile` (watiApi.ts lines 28–88): initial GET; if the response
is HTML, extract a confirmation token and retry once with
`&confirm=<token>` appended (the retried response is not re-inspected);
then stream to disk. -/
def downloadFile (env : DownloadEnv) (url : String) : DownloadResult :=
  match env.resp url with
  | .error e => ⟨[url], .error e, []⟩
  | .ok r =>
    if isHtml r then
      match extractConfirmToken r.body with
      | some tok =>
        let confirmedUrl := url ++ "&confirm=" ++ tok
        match env.resp confirmedUrl with
        | .error e => ⟨[url, confirmedUrl], .error e, []⟩
        | .ok r2 => streamToDisk url [url, confirmedUrl] r2 env.writeOk
      | none => ⟨[url],
          .error "Failed to extract confirmation token from HTML response.", []⟩
    else streamToDisk url [url] r env.writeOk

/-! ## WATI dispatch (watiApi.ts) -/

/-- The fields of a gateway response body that the senders inspect.
A field is `some b` when it holds the boolean `b` (the source compares
with `=== true`, so a non-boolean value behaves like `none`). -/
structure WatiBody where
  success : Option Bool
  result : Option Bool
  message : Option String
deriving Repr, DecidableEq

/-- `response.data.success === true || response.data.result === true`. -/
def bodyAsserts (b : WatiBody) : Bool :=
  b.success == some true || b.result == some true

/-- A gateway POST outcome: `.error` is a thrown transport error or
timeout; `.ok none` is a response whose `data` is falsy; `.ok (some b)`
is a response with a truthy body `b`. -/
abbrev GatewayResp := Except String (Option WatiBody)

/-- `success === true || result === true` on a whole POST outcome. -/
def respAssertsSuccess : GatewayResp → Bool
  | .ok (some b) => bodyAsserts b
  | _ => false

/-- One gateway call actually issued: a POST to the session-file
endpoint (document) or to the session-message endpoint (text). -/
inductive GatewayCall where
  | fileSend (phone caption fileName : String)
  | textSend (phone message : String)
deriving Repr, DecidableEq

/-- Environment of the WATI layer: download environment plus the
gateway's answers to the file and message endpoints (credentials are
assumed configured). -/
structure WatiEnv where
  download : DownloadEnv
  fileResp : GatewayResp
  textResp : GatewayResp

/-- Result of a sender: returned body or thrown error, the gateway
calls issued, and the files left on disk afterwards. -/
structure SendResult where
  result : Except String WatiBody
  calls : List GatewayCall
  finalFiles : List String
deriving Repr, DecidableEq

/-- `sendErrorMessageViaWati` (watiApi.ts lines 179–223): POST to the
session-message endpoint; succeed only if the body asserts success;
on a falsy body or a body failing the assertion, throw
(`response.data.message || 'Unknown error'`; property access on a falsy
`data` also throws, modelled by the same error path). -/
def sendErrorMessageViaWati (env : WatiEnv) (phone message : String) :
    SendResult :=
  let calls := [GatewayCall.textSend phone message]
  match env.textResp with
  | .error e => ⟨.error e, calls, []⟩
  | .ok none => ⟨.error "Unknown error", calls, []⟩
  | .ok (some b) =>
    if bodyAsserts b then ⟨.ok b, calls, []⟩
    else ⟨.error (b.message.getD "Unknown error"), calls, []⟩

/-- The pdfUrl preprocessing of `sendPdfViaWati` (watiApi.ts lines
113–129): extract a Drive file id from an http Drive link, or treat a
non-http argument as a bare file id. -/
def processPdfUrl (pdfUrl : String) : String :=
  if startsWithS pdfUrl "http" then
    if includesS pdfUrl "drive.google.com" then
      match extractDriveFileId pdfUrl with
      | some fid => "https://drive.google.com/uc?export=download&id=" ++ fid
      | none => pdfUrl
    else pdfUrl
  else "https://drive.google.com/uc?export=download&id=" ++ pdfUrl

/-- `path.basename`: the part after the last `/`. -/
def pathBasename (p : String) : String :=
  String.mk ((p.toList.reverse.takeWhile (fun c => c != '/')).reverse)

/-- `sendPdfViaWati` (watiApi.ts lines 98–176): preprocess the URL,
download the file, POST it to the session-file endpoint, and in a
`finally` delete the downloaded file if its path was recorded — a
failure inside `downloadFile` leaves `downloadedFilePath` unset, so
the cleanup does not run over files `downloadFile` created but did not
return. -/
def sendPdfViaWati (env : WatiEnv) (phone name pdfUrl : String) : SendResult :=
  let url := processPdfUrl pdfUrl
  let dl := downloadFile env.download url
  match dl.outcome with
  | .error e => ⟨.error e, [], dl.filesCreated⟩
  | .ok fp =>
    let caption := "Hello " ++ name ++ ", here\x27s your requested document."
    let res : Except String WatiBody :=
      match env.fileResp with
      | .error e => .error e
      | .ok none => .error "Failed to send PDF via WATI API"
      | .ok (some b) =>
        if bodyAsserts b then .ok b
        else .error "Failed to send PDF via WATI API"
    ⟨res, [GatewayCall.fileSend phone caption (pathBasename fp)],
      dl.filesCreated.filter (fun f => f != fp)⟩

/-! ## Directory lookup (googleSheets.ts) -/

/-- One spreadsheet row: column name to string value. -/
abbrev SheetRow := List (String × String)

/-- `row.get(columnName)`. -/
def rowGet (row : SheetRow) (key : String) : Option String :=
  (row.find? (fun kv => kv.fst == key)).map (fun kv => kv.snd)

/-- `findPhoneNumberInSheet` (googleSheets.ts lines 28–66), given the
loaded rows: digit-normalize the input and return the first row whose
`PhoneNumber` column (defaulted to `''`), digit-normalized, equals it. -/
def findPhoneNumberInSheet (rows : List SheetRow) (phoneNumber : String) :
    Option SheetRow :=
  let normalizedPhoneNumber := stripNonDigits phoneNumber
  rows.find? (fun row =>
    stripNonDigits ((rowGet row "PhoneNumber").getD "") == normalizedPhoneNumber)

/-- `getEnrollmentNumber` (googleSheets.ts lines 69–85): the
`enrollmentNumber` column, `null` when the value is absent or falsy. -/
def getEnrollmentNumber (row : SheetRow) : Option String :=
  match rowGet row "enrollmentNumber" with
  | none => none
  | some s => if s == "" then none else some s

/-! ## The webhook route handler `router.post('/receive')` -/

/-- The request body fields the handler destructures. -/
structure ReqBody where
  name : Option String
  phoneNumber : Option String
  phone_number : Option String
deriving Repr

/-- Environment for one pipeline invocation: the WATI layer, the loaded
sheet rows (`.error` models a throw of `initGoogleSheets` /
`loadCells` / `getRows`), and `findPdfByEnrollmentNumber` (`.error`
models a Drive-side throw, `.ok none` is no PDF / no link). -/
structure PipelineEnv where
  wati : WatiEnv
  sheetRows : Except String (List SheetRow)
  locate : String → Except String (Option String)

/-- The observable outcome of one invocation: HTTP status, the JSON
body fields (`success`, `message`, optional `data`, and the `error`
field of the 500 body), plus the gateway calls issued and the files
left on local storage. -/
structure HandlerResult where
  status : Nat
  success : Bool
  message : String
  data : Option WatiBody
  errorText : Option String
  calls : List GatewayCall
  finalFiles : List String
deriving Repr, DecidableEq

/-- The top-level `catch` (webhook route lines 181–188): status 500,
generic message, and the underlying error's message echoed in the
body's `error` field. -/
def fatalResult (e : String) (calls : List GatewayCall)
    (files : List String) : HandlerResult :=
  ⟨500, false, "Error processing webhook", none, some e, calls, files⟩

/-- The body of the handler after `userPhoneNumber` has been selected
(webhook route lines 96–188). -/
def receiveCore (env : PipelineEnv) (name userPhoneNumber : Option String) :
    HandlerResult :=
  if !truthyStr name || !truthyStr userPhoneNumber then
    ⟨400, false, "Name and phone number are required", none, none, [], []⟩
  else
    let up := userPhoneNumber.getD ""
    if !phoneRegexTest (stripSpaces up) then
      ⟨400, false, "Invalid phone number format", none, none, [], []⟩
    else
      let sanitizedName := sanitizeName (name.getD "")
      let sanitizedPhone := stripSpaces up
      match env.sheetRows with
      | .error e => fatalResult e [] []
      | .ok rows =>
        match findPhoneNumberInSheet rows sanitizedPhone with
        | none =>
          let s := sendErrorMessageViaWati env.wati sanitizedPhone
            "Invalid phone number. Please ensure you\x27ve registered with the correct number."
          match s.result with
          | .ok b => ⟨404, false, "Phone number not found in the database",
              some b, none, s.calls, s.finalFiles⟩
          | .error e => fatalResult e s.calls s.finalFiles
        | some matchedRow =>
          match getEnrollmentNumber matchedRow with
          | none => ⟨404, false,
              "Enrollment number not found for the matched phone number",
              none, none, [], []⟩
          | some enrollmentNumber =>
            match env.locate enrollmentNumber with
            | .error e => fatalResult e [] []
            | .ok none =>
              let s := sendErrorMessageViaWati env.wati sanitizedPhone
                "We couldn\x27t find your document. Please contact support for assistance."
              match s.result with
              | .ok b => ⟨404, false, "PDF not found for the enrollment number",
                  some b, none, s.calls, s.finalFiles⟩
              | .error e => fatalResult e s.calls s.finalFiles
            | .ok (some pdfUrl) =>
              let s := sendPdfViaWati env.wati sanitizedPhone sanitizedName pdfUrl
              match s.result with
              | .ok b => ⟨200, true, "PDF sent successfully",
                  some b, none, s.calls, s.finalFiles⟩
              | .error e => fatalResult e s.calls s.finalFiles

/-- The full handler: `const userPhoneNumber = phoneNumber ||
phone_number` (line 96), then the pipeline. -/
def receiveHandler (env : PipelineEnv) (req : ReqBody) : HandlerResult :=
  receiveCore env req.name (jsOrStr req.phoneNumber req.phone_number)

/-! ## Concrete fixtures used by witnesses and counterexamples -/

def row1 : SheetRow := [("PhoneNumber", "+1 202-555-0178"), ("enrollmentNumber", "EN100")]

def rows1 : List SheetRow := [row1]

def rowNoKey : SheetRow := [("PhoneNumber", "9876543210"), ("enrollmentNumber", "")]

def driveUrl1 : String := "https://drive.google.com/uc?export=download&id=EN100FILE"

def pdfResp1 : HttpResponse :=
  { contentType := some "application/pdf"
    contentDisposition := some "attachment; filename=\"EN100.pdf\""
    body := "" }

def htmlRespTok : HttpResponse :=
  { contentType := some "text/html; charset=utf-8"
    contentDisposition := none
    body := "<html>confirm=TOK99&x</html>" }

def htmlRespTok2 : HttpResponse :=
  { contentType := some "text/html; charset=utf-8"
    contentDisposition := none
    body := "<html>confirm=AGAIN&y</html>" }

def htmlRespNoTok : HttpResponse :=
  { contentType := some "text/html; charset=utf-8"
    contentDisposition := none
    body := "<html>virus scan warning page</html>" }

def okBody : WatiBody := { success := some true, result := none, message := none }

def dlEnvHappy : DownloadEnv := { resp := fun _ => .ok pdfResp1, writeOk := true }

def dlEnvBadWrite : DownloadEnv := { resp := fun _ => .ok pdfResp1, writeOk := false }

/-- Both the initial and the retried response are HTML confirmation
pages: exercises that the retry is not re-inspected. -/
def dlEnvHtmlHtml : DownloadEnv :=
  { resp := fun u => if u == "https://L" then .ok htmlRespTok else .ok htmlRespTok2
    writeOk := true }

def dlEnvNoTok : DownloadEnv := { resp := fun _ => .ok htmlRespNoTok, writeOk := true }

def watiEnvHappy : WatiEnv :=
  { download := dlEnvHappy, fileResp := .ok (some okBody), textResp := .ok (some okBody) }

def locate1 : String → Except String (Option String) :=
  fun k => if k == "EN100" then .ok (some driveUrl1) else .ok none

def envHappy : PipelineEnv :=
  { wati := watiEnvHappy, sheetRows := .ok rows1, locate := locate1 }

def envBadWrite : PipelineEnv :=
  { envHappy with wati := { watiEnvHappy with download := dlEnvBadWrite } }

def envSheetErr : PipelineEnv :=
  { envHappy with
    sheetRows := .error "Google Sheets credentials not properly configured" }

def envNoKey : PipelineEnv := { envHappy with sheetRows := .ok [rowNoKey] }

def reqJane : ReqBody := ⟨some "Jane", some "+1 202-555-0178", none⟩

def reqJaneSpaces : ReqBody := ⟨some "Jane", some "+1 202 555 0178", none⟩

def reqNoKey : ReqBody := ⟨some "Sam", some "9876543210", none⟩

/-! ## Helper lemmas -/

/-- A phone passing the format test is in particular non-empty. -/
theorem phoneRegex_ne_empty (p : String)
    (h : phoneRegexTest (stripSpaces p) = true) : p ≠ "" := by
  intro hc
  subst hc
  exact absurd h (by decide)

/-- `streamToDisk` reports exactly the requests it was handed. -/
theorem streamToDisk_requests (url : String) (reqs : List String)
    (r : HttpResponse) (w : Bool) : (streamToDisk url reqs r w).requests = reqs := by
  unfold streamToDisk
  split <;> rfl

/-- The text sender always issues exactly its one session-message POST. -/
theorem sendText_calls (env : WatiEnv) (p m : String) :
    (sendErrorMessageViaWati env p m).calls = [GatewayCall.textSend p m] := by
  unfold sendErrorMessageViaWati
  rcases env.textResp with e | o
  · rfl
  · rcases o with _ | b
    · rfl
    · dsimp only
      split <;> rfl

/-- The text sender touches no files. -/
theorem sendText_finalFiles (env : WatiEnv) (p m : String) :
    (sendErrorMessageViaWati env p m).finalFiles = [] := by
  unfold sendErrorMessageViaWati
  rcases env.textResp with e | o
  · rfl
  · rcases o with _ | b
    · rfl
    · dsimp only
      split <;> rfl

/-- The text sender returns normally exactly when the gateway response
body asserts success. -/
theorem sendText_result_isOk (env : WatiEnv) (p m : String) :
    (sendErrorMessageViaWati env p m).result.isOk = respAssertsSuccess env.textResp := by
  unfold sendErrorMessageViaWati respAssertsSuccess
  rcases env.textResp with e | o
  · rfl
  · rcases o with _ | b
    · rfl
    · dsimp only
      split
      · next hb => simp [Except.isOk, Except.toBool, hb]
      · next hb => simp [Except.isOk, Except.toBool, Bool.not_eq_true] at hb ⊢
                   simp [hb]

/-- The PDF sender issues at most one gateway call. -/
theorem sendPdf_calls_len (env : WatiEnv) (p n u : String) :
    (sendPdfViaWati env p n u).calls.length ≤ 1 := by
  unfold sendPdfViaWati
  rcases hout : (downloadFile env.download (processPdfUrl u)).outcome with e | fp <;>
    simp [hout]

/-- When the write stream succeeds, the files `downloadFile` created
are exactly the path it returns (none if it threw earlier). -/
theorem downloadFile_files_writeOk (env : DownloadEnv) (url : String)
    (h : env.writeOk = true) :
    (downloadFile env url).filesCreated =
      (downloadFile env url).outcome.toOption.toList := by
  unfold downloadFile
  rcases h1 : env.resp url with e | r
  · simp [h1, Except.toOption]
  · by_cases hh : isHtml r = true
    · rcases htok : extractConfirmToken r.body with _ | tok
      · simp [h1, hh, htok, Except.toOption]
      · rcases h2 : env.resp (url ++ "&confirm=" ++ tok) with e2 | r2
        · simp [h1, hh, htok, h2, Except.toOption]
        · simp [h1, hh, htok, h2, streamToDisk, h, Except.toOption]
    · rw [Bool.not_eq_true] at hh
      simp [h1, hh, streamToDisk, h, Except.toOption]

/-- When the write stream succeeds, the PDF sender leaves no file
behind on any of its exit paths. -/
theorem sendPdf_finalFiles_clean (env : WatiEnv) (p n u : String)
    (h : env.download.writeOk = true) :
    (sendPdfViaWati env p n u).finalFiles = [] := by
  have hf := downloadFile_files_writeOk env.download (processPdfUrl u) h
  unfold sendPdfViaWati
  rcases hout : (downloadFile env.download (processPdfUrl u)).outcome with e | fp
  · rw [hout] at hf
    simp [hout, hf, Except.toOption]
  · rw [hout] at hf
    simp [hout, hf, Except.toOption, List.filter]

/-- The PDF sender returns the gateway body when the download returned
a path and the gateway asserted success. -/
theorem sendPdf_result_ok (env : WatiEnv) (p n u fp : String) (b : WatiBody)
    (hdl : (downloadFile env.download (processPdfUrl u)).outcome = .ok fp)
    (hfr : env.fileResp = .ok (some b)) (hb : bodyAsserts b = true) :
    (sendPdfViaWati env p n u).result = .ok b := by
  unfold sendPdfViaWati
  simp [hdl, hfr, hb]

/-- Once the download has returned a path, the PDF sender returns
normally exactly when the gateway response body asserts success. -/
theorem sendPdf_result_isOk (env : WatiEnv) (p n u fp : String)
    (hdl : (downloadFile env.download (processPdfUrl u)).outcome = .ok fp) :
    (sendPdfViaWati env p n u).result.isOk = respAssertsSuccess env.fileResp := by
  unfold sendPdfViaWati respAssertsSuccess
  rcases hfr : env.fileResp with e | o
  · simp [hdl, Except.isOk, Except.toBool]
  · rcases o with _ | b
    · simp [hdl, Except.isOk, Except.toBool]
    · by_cases hb : bodyAsserts b = true
      · simp [hdl, hb, Except.isOk, Except.toBool]
      · rw [Bool.not_eq_true] at hb
        simp [hdl, hb, Except.isOk, Except.toBool]

/-! ## Claim theorems -/

/-- C5: when the initial GET returns an HTML response whose body yields
a confirmation token, `downloadFile` issues exactly the initial GET and
one retry GET with `&confirm=<token>` appended to the original link —
never a second retry, whatever the retried response is. -/
theorem c5_single_confirm_retry (env : DownloadEnv) (url : String)
    (r : HttpResponse) (tok : String)
    (h1 : env.resp url = .ok r) (h2 : isHtml r = true)
    (h3 : extractConfirmToken r.body = some tok) :
    (downloadFile env url).requests = [url, url ++ "&confirm=" ++ tok] := by
  unfold downloadFile
  rcases h2' : env.resp (url ++ "&confirm=" ++ tok) with e2 | r2
  · simp [h1, h2, h3, h2']
  · simp [h1, h2, h3, h2', streamToDisk_requests]

/-- C5 witness: an environment in which the retried response is again
an HTML confirmation page still sees exactly two GETs. -/
theorem c5_witness :
    (downloadFile dlEnvHtmlHtml "https://L").requests =
      ["https://L", "https://L&confirm=TOK99"] :=
  c5_single_confirm_retry dlEnvHtmlHtml "https://L" htmlRespTok "TOK99"
    (by decide) (by decide) (by decide)

/-- C6: when the initial GET returns an HTML response whose body yields
no confirmation token, `downloadFile` throws the confirmation-token
error, issues no retry, and creates no file. -/
theorem c6_no_token_fails (env : DownloadEnv) (url : String) (r : HttpResponse)
    (h1 : env.resp url = .ok r) (h2 : isHtml r = true)
    (h3 : extractConfirmToken r.body = none) :
    downloadFile env url =
      ⟨[url], .error "Failed to extract confirmation token from HTML response.",
        []⟩ := by
  unfold downloadFile
  simp [h1, h2, h3]

/-- C6 witness. -/
theorem c6_witness :
    downloadFile dlEnvNoTok "https://L" =
      ⟨["https://L"],
        .error "Failed to extract confirmation token from HTML response.",
        []⟩ :=
  c6_no_token_fails dlEnvNoTok "https://L" htmlRespNoTok
    (by decide) (by decide) (by decide)

/-- C9: the output file name is resolved by strict priority: the name
the content-disposition header contributes when there is one, else the
`id=<value>` identifier from the request URL suffixed `.pdf`, else the
fixed fallback `downloaded.pdf`. -/
theorem c9_filename_priority (cd : Option String) (url : String) :
    (dispositionFileName cd ≠ "" →
      resolveFileName cd url = dispositionFileName cd) ∧
    (dispositionFileName cd = "" → ∀ fid, extractFileId url = some fid →
      resolveFileName cd url = fid ++ ".pdf") ∧
    (dispositionFileName cd = "" → extractFileId url = none →
      resolveFileName cd url = "downloaded.pdf") := by
  refine ⟨fun h => ?_, fun h fid hfid => ?_, fun h hfid => ?_⟩
  · simp [resolveFileName, h]
  · simp [resolveFileName, h, hfid]
  · simp [resolveFileName, h, hfid]

/-- C9 witness: the three priority levels at concrete inputs. -/
theorem c9_witness :
    resolveFileName (some "attachment; filename=\"EN100.pdf\"")
      "https://x?id=A&b" = "EN100.pdf" ∧
    resolveFileName none "https://x?id=A&b" = "A.pdf" ∧
    resolveFileName none "https://x" = "downloaded.pdf" :=
  ⟨(c9_filename_priority (some "attachment; filename=\"EN100.pdf\"")
      "https://x?id=A&b").1 (by decide),
   (c9_filename_priority none "https://x?id=A&b").2.1 (by decide) "A" (by decide),
   (c9_filename_priority none "https://x").2.2 (by decide) (by decide)⟩

/-- C8: both senders return normally exactly when the gateway response
body asserts success explicitly (`success === true` or
`result === true`); every other body shape, transport failure or
timeout leaves them throwing (for the PDF sender, once the download has
produced a file so the gateway POST is reached). -/
theorem c8_success_assertion (env : WatiEnv) (phone msg name url fp : String)
    (hdl : (downloadFile env.download (processPdfUrl url)).outcome = .ok fp) :
    ((sendErrorMessageViaWati env phone msg).result.isOk =
      respAssertsSuccess env.textResp) ∧
    ((sendPdfViaWati env phone name url).result.isOk =
      respAssertsSuccess env.fileResp) :=
  ⟨sendText_result_isOk env phone msg,
   sendPdf_result_isOk env phone name url fp hdl⟩

/-- C8 witness. -/
theorem c8_witness :
    ((sendErrorMessageViaWati watiEnvHappy "+12025550178" "msg").result.isOk =
      respAssertsSuccess watiEnvHappy.textResp) ∧
    ((sendPdfViaWati watiEnvHappy "+12025550178" "Jane" driveUrl1).result.isOk =
      respAssertsSuccess watiEnvHappy.fileResp) :=
  c8_success_assertion watiEnvHappy "+12025550178" "msg" "Jane" driveUrl1
    "/app/server/services/EN100.pdf" (by decide)

/-- Combined case analysis of the handler: at most one gateway call per
invocation; a 500 always carries the generic message with the
underlying error in `errorText`; and when the write stream succeeds no
file is left on storage. -/
theorem receiveCore_props (env : PipelineEnv) (nm up : Option String) :
    (receiveCore env nm up).calls.length ≤ 1 ∧
    ((receiveCore env nm up).status = 500 →
      (receiveCore env nm up).message = "Error processing webhook" ∧
      (receiveCore env nm up).errorText.isSome = true) ∧
    (env.wati.download.writeOk = true →
      (receiveCore env nm up).finalFiles = []) := by
  unfold receiveCore
  by_cases h1 : (!truthyStr nm || !truthyStr up) = true
  · simp [h1]
  · rw [Bool.not_eq_true] at h1
    by_cases h2 : (!phoneRegexTest (stripSpaces (up.getD ""))) = true
    · simp [h1, h2]
    · rw [Bool.not_eq_true] at h2
      rcases hsheet : env.sheetRows with e | rows
      · simp [h1, h2, hsheet, fatalResult]
      · rcases hfind :
            findPhoneNumberInSheet rows (stripSpaces (up.getD "")) with _ | row
        · rcases hres : (sendErrorMessageViaWati env.wati
              (stripSpaces (up.getD ""))
              "Invalid phone number. Please ensure you\x27ve registered with the correct number.").result
            with e | b <;>
          simp [h1, h2, hsheet, hfind, hres, fatalResult, sendText_calls,
            sendText_finalFiles]
        · rcases hen : getEnrollmentNumber row with _ | en
          · simp [h1, h2, hsheet, hfind, hen]
          · rcases hloc : env.locate en with e | opt
            · simp [h1, h2, hsheet, hfind, hen, hloc, fatalResult]
            · rcases opt with _ | pdfUrl
              · rcases hres : (sendErrorMessageViaWati env.wati
                    (stripSpaces (up.getD ""))
                    "We couldn\x27t find your document. Please contact support for assistance.").result
                  with e | b <;>
                simp [h1, h2, hsheet, hfind, hen, hloc, hres, fatalResult,
                  sendText_calls, sendText_finalFiles]
              · rcases hres : (sendPdfViaWati env.wati
                    (stripSpaces (up.getD ""))
                    (sanitizeName (nm.getD "")) pdfUrl).result with e | b <;>
                simp [h1, h2, hsheet, hfind, hen, hloc, hres, fatalResult,
                  sendPdf_calls_len] <;>
                exact fun hw => sendPdf_finalFiles_clean env.wati _ _ _ hw

/-- C4: a single pipeline invocation issues at most one gateway call —
never both a session-file POST and a session-message POST. -/
theorem c4_at_most_one_dispatch (env : PipelineEnv) (req : ReqBody) :
    (receiveHandler env req).calls.length ≤ 1 :=
  (receiveCore_props env req.name
    (jsOrStr req.phoneNumber req.phone_number)).1

/-- C2 counterexample: a pipeline invocation whose directory stage
throws `"Google Sheets credentials not properly configured"` returns a
500 whose body echoes exactly that text in its `error` field — the
claim that the 500 body does not echo the underlying error's text
verbatim is false. -/
theorem c2_counterexample :
    receiveHandler envSheetErr reqJaneSpaces =
      ⟨500, false, "Error processing webhook", none,
        some "Google Sheets credentials not properly configured", [], []⟩ := by
  decide

/-- C2 amended: every Fatal exit returns 500 with the generic message
`"Error processing webhook"` in the `message` field, while the body's
`error` field carries the underlying error's message. -/
theorem c2_amended (env : PipelineEnv) (req : ReqBody)
    (h : (receiveHandler env req).status = 500) :
    (receiveHandler env req).message = "Error processing webhook" ∧
    (receiveHandler env req).errorText.isSome = true :=
  (receiveCore_props env req.name
    (jsOrStr req.phoneNumber req.phone_number)).2.1 h

/-- C2 witness. -/
theorem c2_witness :
    (receiveHandler envSheetErr reqJaneSpaces).message = "Error processing webhook" ∧
    (receiveHandler envSheetErr reqJaneSpaces).errorText.isSome = true :=
  c2_amended envSheetErr reqJaneSpaces (by decide)

/-- C3 counterexample: an invocation that reaches document fetching but
whose write stream errors terminates (with a 500 from the thrown write
error) while the partial file is still on storage — the cleanup in
`sendPdfViaWati` only deletes a path `downloadFile` returned, and here
`downloadFile` threw after creating the file. -/
theorem c3_counterexample :
    (receiveHandler envBadWrite reqJaneSpaces).status = 500 ∧
    (receiveHandler envBadWrite reqJaneSpaces).errorText =
      some "write stream error" ∧
    (receiveHandler envBadWrite reqJaneSpaces).finalFiles =
      ["/app/server/services/EN100.pdf"] := by
  decide

/-- C3 amended: on every exit path on which the streaming write to disk
completes — successful dispatch, gateway send failure, exceptions
during dispatch, and download failures thrown before streaming — the
invocation terminates with no downloaded file on storage. -/
theorem c3_amended (env : PipelineEnv) (req : ReqBody)
    (h : env.wati.download.writeOk = true) :
    (receiveHandler env req).finalFiles = [] :=
  (receiveCore_props env req.name
    (jsOrStr req.phoneNumber req.phone_number)).2.2 h

/-- C3 witness. -/
theorem c3_witness : (receiveHandler envHappy reqJaneSpaces).finalFiles = [] :=
  c3_amended envHappy reqJaneSpaces (by decide)

/-- C7: a matched directory row whose enrollment-number column is empty
or absent makes the pipeline terminate with 404 and the message
`"Enrollment number not found for the matched phone number"` — and no
gateway call at all. -/
theorem c7_missing_secondary_key (env : PipelineEnv) (name phone : String)
    (rows : List SheetRow) (row : SheetRow)
    (hn : name ≠ "")
    (hre : phoneRegexTest (stripSpaces phone) = true)
    (hsheet : env.sheetRows = .ok rows)
    (hfind : findPhoneNumberInSheet rows (stripSpaces phone) = some row)
    (hen : getEnrollmentNumber row = none) :
    receiveHandler env ⟨some name, some phone, none⟩ =
      ⟨404, false, "Enrollment number not found for the matched phone number",
        none, none, [], []⟩ := by
  have hp : phone ≠ "" := phoneRegex_ne_empty phone hre
  unfold receiveHandler receiveCore
  simp [jsOrStr, truthyStr, hn, hp, hre, hsheet, hfind, hen]

/-- C7 witness. -/
theorem c7_witness :
    receiveHandler envNoKey reqNoKey =
      ⟨404, false, "Enrollment number not found for the matched phone number",
        none, none, [], []⟩ :=
  c7_missing_secondary_key envNoKey "Sam" "9876543210" [rowNoKey] rowNoKey
    (by decide) (by decide) (by decide) (by decide) (by decide)

/-- C1 counterexample: for `{name:"Jane", phoneNumber:"+1 202-555-0178"}`
in an environment where the digit-normalized phone matches a directory
row with enrollment number `"EN100"`, the document is located, and the
gateway dispatch succeeds, the invocation does NOT pass input
validation: the handler strips only whitespace (not all non-digit
characters) before the regex test, the hyphens remain, and the result
is a 400, not a 200. -/
theorem c1_counterexample :
    findPhoneNumberInSheet rows1 (stripNonDigits "+1 202-555-0178") = some row1 ∧
    getEnrollmentNumber row1 = some "EN100" ∧
    envHappy.locate "EN100" = .ok (some driveUrl1) ∧
    respAssertsSuccess envHappy.wati.fileResp = true ∧
    receiveHandler envHappy reqJane =
      ⟨400, false, "Invalid phone number format", none, none, [], []⟩ := by
  decide

/-- C1 amended: the phone is normalized by stripping only whitespace
before the `^\+?[0-9]{10,15}$` check, so the hyphenated input is
rejected with 400; for an input whose whitespace-stripped phone passes
the check and whose pipeline stages all succeed, the invocation
terminates with 200 and `{success:true, data}`. -/
theorem c1_amended (env : PipelineEnv) (name phone : String)
    (rows : List SheetRow) (row : SheetRow) (en url fp : String) (b : WatiBody)
    (hn : name ≠ "")
    (hre : phoneRegexTest (stripSpaces phone) = true)
    (hsheet : env.sheetRows = .ok rows)
    (hfind : findPhoneNumberInSheet rows (stripSpaces phone) = some row)
    (hen : getEnrollmentNumber row = some en)
    (hloc : env.locate en = .ok (some url))
    (hdl : (downloadFile env.wati.download (processPdfUrl url)).outcome = .ok fp)
    (hfr : env.wati.fileResp = .ok (some b))
    (hb : bodyAsserts b = true) :
    (receiveHandler env ⟨some name, some phone, none⟩).status = 200 ∧
    (receiveHandler env ⟨some name, some phone, none⟩).success = true ∧
    (receiveHandler env ⟨some name, some phone, none⟩).data = some b := by
  have hp : phone ≠ "" := phoneRegex_ne_empty phone hre
  have hres : (sendPdfViaWati env.wati (stripSpaces phone)
      (sanitizeName name) url).result = .ok b :=
    sendPdf_result_ok env.wati (stripSpaces phone) (sanitizeName name) url fp b
      hdl hfr hb
  unfold receiveHandler receiveCore
  simp [jsOrStr, truthyStr, hn, hp, hre, hsheet, hfind, hen, hloc, hres]

/-- C1 witness: the whitespace-separated variant of the same input runs
the pipeline to 200. -/
theorem c1_witness :
    (receiveHandler envHappy reqJaneSpaces).status = 200 ∧
    (receiveHandler envHappy reqJaneSpaces).success = true ∧
    (receiveHandler envHappy reqJaneSpaces).data = some okBody :=
  c1_amended envHappy "Jane" "+1 202 555 0178" rows1 row1 "EN100" driveUrl1
    "/app/server/services/EN100.pdf" okBody
    (by decide) (by decide) (by decide) (by decide) (by decide) (by decide)
    (by decide) (by decide) (by decide)

/-- C10: the choice between the two accepted phone keys is made by
truthiness, not key presence: with `phoneNumber` the empty string the
handler falls back to `phone_number`, behaving exactly as if the valid
phone had been supplied as `phoneNumber`, and is not rejected with 400. -/
theorem c10_falsy_phone_key (env : PipelineEnv) (n p : String)
    (hn : n ≠ "") (hre : phoneRegexTest (stripSpaces p) = true) :
    receiveHandler env ⟨some n, some "", some p⟩ =
      receiveHandler env ⟨some n, some p, none⟩ ∧
    (receiveHandler env ⟨some n, some "", some p⟩).status ≠ 400 := by
  have hp : p ≠ "" := phoneRegex_ne_empty p hre
  have hsel : jsOrStr (some "") (some p) = some p := by
    simp [jsOrStr, truthyStr]
  have hsel2 : jsOrStr (some p) none = some p := by
    simp [jsOrStr, truthyStr, hp]
  constructor
  · show receiveCore env (some n) (jsOrStr (some "") (some p)) =
      receiveCore env (some n) (jsOrStr (some p) none)
    rw [hsel, hsel2]
  · show (receiveCore env (some n) (jsOrStr (some "") (some p))).status ≠ 400
    rw [hsel]
    unfold receiveCore
    by_cases h1 : (!truthyStr (some n) || !truthyStr (some p)) = true
    · simp [truthyStr, hn, hp] at h1
    · rw [Bool.not_eq_true] at h1
      rcases hsheet : env.sheetRows with e | rows
      · simp [h1, hre, hsheet, fatalResult]
      · rcases hfind :
            findPhoneNumberInSheet rows (stripSpaces p) with _ | row
        · rcases hres : (sendErrorMessageViaWati env.wati (stripSpaces p)
              "Invalid phone number. Please ensure you\x27ve registered with the correct number.").result
            with e | b <;>
          simp [h1, hre, hsheet, hfind, hres, fatalResult]
        · rcases hen : getEnrollmentNumber row with _ | en
          · simp [h1, hre, hsheet, hfind, hen]
          · rcases hloc : env.locate en with e | opt
            · simp [h1, hre, hsheet, hfind, hen, hloc, fatalResult]
            · rcases opt with _ | pdfUrl
              · rcases hres : (sendErrorMessageViaWati env.wati (stripSpaces p)
                    "We couldn\x27t find your document. Please contact support for assistance.").result
                  with e | b <;>
                simp [h1, hre, hsheet, hfind, hen, hloc, hres, fatalResult]
              · rcases hres : (sendPdfViaWati env.wati (stripSpaces p)
                    (sanitizeName n) pdfUrl).result with e | b <;>
                simp [h1, hre, hsheet, hfind, hen, hloc, hres, fatalResult]

/-- C10 witness. -/
theorem c10_witness :
    receiveHandler envHappy ⟨some "Jane", some "", some "+1 202 555 0178"⟩ =
      receiveHandler envHappy ⟨some "Jane", some "+1 202 555 0178", none⟩ ∧
    (receiveHandler envHappy
      ⟨some "Jane", some "", some "+1 202 555 0178"⟩).status ≠ 400 :=
  c10_falsy_phone_key envHappy "Jane" "+1 202 555 0178" (by decide) (by decide)

end Wati
